import Mathlib

/-
Verification development for the media-monitoring report pipeline in
src/api.py (endpoint analyser_csv, POST /analyser).

The pipeline is embedded shallowly: each pandas transformation of the
endpoint body is translated to an executable Lean definition over an
explicit row representation.  Rasterisation of the three figures to PNG,
base64 encoding, and the HTML string interpolation are presentation steps
outside the embedding; the embedding stops at the exact numeric chart data
that the figures draw.  Library behaviour that the code relies on is made
explicit where it matters:

- pd.to_datetime(col, errors = coerce) never raises; an unparseable cell
  becomes the missing marker NaT.  A parsed timestamp is represented by its
  calendar date, which is all the pipeline reads from it (.dt.year,
  .dt.date, .dt.to_period).  A date cell is therefore represented directly
  by its parse result, an Option Date.
- astype(str) renders a missing sentiment cell as the string "nan".
- Comparisons of a missing Year with a number are false, and isin on a
  missing authorName is false, so such rows never pass the filter mask.
- Series.min and Series.max skip missing values; on an all-missing or
  empty column they return NaN, and int(NaN) raises ValueError.
- groupby drops rows whose grouping key is missing; unstack produces one
  column per distinct key value, sorted; head(10) keeps all columns.
- Series.unique returns each distinct value once (first occurrence order);
  it is modelled by List.dedup, which is order-insensitive here because
  every later use of these lists is a membership test or is re-sorted.
- DataFrame.plot raises TypeError with the message no numeric data to
  plot when the frame has no numeric column, so the stacked barh call on
  the vocabulary-intersected top-authors frame fails whenever that column
  selection is empty; the matplotlib line and bar charts of the first two
  figures accept empty data.
-/

set_option maxRecDepth 4000

namespace Api

/-- Calendar date carried by a successfully parsed timestamp (api.py line
40).  Only calendar fields are used by the pipeline. -/
structure Date where
  year : Int
  month : Int
  day : Int
deriving Repr, DecidableEq

/-- Day count since 1970-01-01 of a calendar date, by the standard civil
calendar arithmetic.  Used to identify week buckets, since pandas weekly
periods are intervals of seven consecutive days running Monday to Sunday. -/
def daysFromCivil (dt : Date) : Int :=
  let y2 : Int := if dt.month ≤ 2 then dt.year - 1 else dt.year
  let era : Int := (if 0 ≤ y2 then y2 else y2 - 399) / 400
  let yoe : Int := y2 - era * 400
  let mp : Int := (dt.month + 9) % 12
  let doy : Int := (153 * mp + 2) / 5 + dt.day - 1
  let doe : Int := yoe * 365 + yoe / 4 - yoe / 100 + doy
  era * 146097 + doe - 719468

/-- Day number of the Monday opening the week that contains the date.
1970-01-01 (day 0) was a Thursday, so weekday with Monday = 0 is
(n + 3) % 7. -/
def weekStart (dt : Date) : Int :=
  daysFromCivil dt - (daysFromCivil dt + 3) % 7

/-- Value of the Period column for one row, for each of the four branches
of api.py lines 65 to 74: .dt.date keeps the calendar date, to_period(W)
collapses to the enclosing Monday-to-Sunday week, to_period(M) to the
calendar month, to_period(Y) to the calendar year. -/
inductive Bucket where
  | day (year month dayOfMonth : Int)
  | week (weekStartDay : Int)
  | month (year month : Int)
  | year (year : Int)
deriving Repr, DecidableEq

/-- Granularity dispatch of api.py lines 65 to 74; the trailing else branch
(line 73 to 74) sends every unrecognized granularity string to the month
bucketing. -/
def bucketOf (granularity : String) (dt : Date) : Bucket :=
  if granularity = "Par jour" then .day dt.year dt.month dt.day
  else if granularity = "Par semaine" then .week (weekStart dt)
  else if granularity = "Par mois" then .month dt.year dt.month
  else if granularity = "Par année" then .year dt.year
  else .month dt.year dt.month

/-- Sort key embedding buckets of one granularity into integers, mirroring
the chronological order that sort_index gives periods (api.py line 76).
Within one request all buckets share a constructor, so only the order
inside each constructor matters. -/
def bucketKey : Bucket → Int
  | .day y m d => daysFromCivil ⟨y, m, d⟩
  | .week w => w
  | .month y m => y * 12 + m
  | .year y => y

/-- Python str.lower restricted to the ASCII range, as applied by
.str.lower() at api.py line 41 to the ASCII sentiment labels. -/
def strLower (s : String) : String := ⟨s.data.map Char.toLower⟩

/-- Python str.strip: drop leading and trailing whitespace (api.py line
41, .str.strip()). -/
def strStrip (s : String) : String :=
  ⟨((s.data.dropWhile Char.isWhitespace).reverse.dropWhile
      Char.isWhitespace).reverse⟩

/-- Python str() of a sentiment cell as performed by astype(str) at api.py
line 41: a missing value becomes the literal string "nan". -/
def cellToStr : Option String → String
  | none => "nan"
  | some s => s

/-- Raw cells of one CSV row under the three required columns.  The date
cell is represented by the result of its best-effort parse (none when
pd.to_datetime coerces it to NaT), the author and sentiment cells by
Option String (none = missing value). -/
structure RawRow where
  dateCell : Option Date
  authorCell : Option String
  sentimentCell : Option String
deriving Repr, DecidableEq

/-- Parsed CSV: the header names plus the rows.  Rows carry only the three
columns the pipeline reads. -/
structure Csv where
  header : List String
  rows : List RawRow
deriving Repr, DecidableEq

/-- Form parameters of POST /analyser (api.py lines 31 to 36); none means
the field was omitted.  The granularity form default is the string
"Par mois". -/
structure Params where
  selected_authors : Option (List String)
  min_year : Option Int
  max_year : Option Int
  granularity : Option String
deriving Repr, DecidableEq

/-- One record after the normalisation lines 40 to 42 of api.py: parsed
date (none = NaT), author as read, and the trimmed lowercased sentiment
string (never missing, since astype(str) turns a missing cell into
"nan"). -/
structure Row where
  date : Option Date
  author : Option String
  sentiment : String
deriving Repr, DecidableEq

/-- Normalisation of one raw row, api.py lines 40 to 41. -/
def normalizeRow (r : RawRow) : Row :=
  { date := r.dateCell
  , author := r.authorCell
  , sentiment := strLower (strStrip (cellToStr r.sentimentCell)) }

/-- The dataframe after the normalisation lines 40 to 42: one Row per CSV
row, in order. -/
def ingestRows (csv : Csv) : List Row := csv.rows.map normalizeRow

/-- Year column of api.py line 42: the year of the parsed date, missing
when the date is missing. -/
def yearOf (r : Row) : Option Int := r.date.map Date.year

/-- All years present in the data (the non-missing entries of the Year
column). -/
def observedYears (rows : List Row) : List Int := rows.filterMap yearOf

/-- Resolution of an omitted year bound, api.py lines 44 to 47: int() of
the observed extreme year.  When every year is missing the pandas extreme
is NaN and int(NaN) raises ValueError. -/
def resolveBound (given : Option Int) (observed : Option Int) :
    Except String Int :=
  match given with
  | some v => .ok v
  | none =>
    match observed with
    | some y => .ok y
    | none => .error "ValueError: cannot convert float NaN to integer"

/-- Default author allow-list, api.py line 49: the distinct non-missing
author names. -/
def distinctAuthors (rows : List Row) : List String :=
  (rows.filterMap Row.author).dedup

/-- Filter mask of api.py lines 51 to 55.  A missing year fails both
comparisons and a missing author fails isin, so either one excludes the
row. -/
def keepRow (min_year max_year : Int) (selected_authors : List String)
    (r : Row) : Bool :=
  (match yearOf r with
   | some y => decide (min_year ≤ y) && decide (y ≤ max_year)
   | none => false)
  && (match r.author with
      | some a => selected_authors.contains a
      | none => false)

/-- KPI record of api.py lines 57 to 62. -/
structure Kpis where
  total_mentions : Nat
  positive : Nat
  negative : Nat
  neutral : Nat
deriving Repr, DecidableEq

/-- Number of rows whose normalized sentiment equals the given label
(the equality selections of api.py lines 59 to 61 and the value_counts
lookups of line 88). -/
def countSentiment (rows : List Row) (s : String) : Nat :=
  (rows.filter (fun r => r.sentiment == s)).length

/-- KPI computation over the filtered rows, api.py lines 57 to 62. -/
def kpisOf (rows : List Row) : Kpis :=
  { total_mentions := rows.length
  , positive := countSentiment rows "positive"
  , negative := countSentiment rows "negative"
  , neutral := countSentiment rows "neutral" }

/-- Fixed sentiment vocabulary, api.py line 21. -/
def desired_order : List String :=
  ["strongly positive", "positive", "neutral", "negative",
   "strongly negative"]

/-- Fixed five-colour palette, api.py line 22, positionally aligned with
desired_order. -/
def palette_custom : List String :=
  ["#81C3D7", "#219ebc", "#D9DCD6", "#2F6690", "#16425B"]

/-- Data of the mentions-over-time line chart, api.py line 76: one point
per distinct period present (value_counts drops the missing periods of
NaT dates), count of rows in that period, sorted chronologically by
sort_index. -/
def mentions_over_time (granularity : String) (rows : List Row) :
    List (Bucket × Nat) :=
  let buckets := rows.filterMap (fun r => r.date.map (bucketOf granularity))
  (buckets.dedup.insertionSort
      (fun a b => bucketKey a ≤ bucketKey b)).map
    (fun b => (b, buckets.count b))

/-- Data of the sentiment-distribution bar chart, api.py lines 87 to 88:
one bar per vocabulary label in fixed order, height the count of that
label (0 when absent, the default of the .get lookup). -/
def sentiment_counts (rows : List Row) : List (String × Nat) :=
  desired_order.map (fun s => (s, countSentiment rows s))

/-- Lexicographic comparison of character lists by code point, the order
pandas uses for string labels in a sorted index. -/
def charListLe : List Char → List Char → Bool
  | [], _ => true
  | _ :: _, [] => false
  | a :: as, b :: bs =>
    if a.toNat < b.toNat then true
    else if b.toNat < a.toNat then false
    else charListLe as bs

/-- Lexicographic string comparison by code point. -/
def strLe (a b : String) : Bool := charListLe a.data b.data

/-- Column labels of the unstacked author-by-sentiment table of api.py
line 98: the distinct sentiment values among rows whose author is present
(groupby drops rows with a missing key), in the sorted order unstack
gives. -/
def matrixCols (rows : List Row) : List String :=
  (((rows.filter (fun r => r.author.isSome)).map
      Row.sentiment).dedup).insertionSort (fun a b => strLe a b = true)

/-- Row index of the unstacked author-by-sentiment table of api.py line
98: the distinct non-missing author names, in the sorted order groupby
gives. -/
def matrixAuthors (rows : List Row) : List String :=
  ((rows.filterMap Row.author).dedup).insertionSort
    (fun a b => strLe a b = true)

/-- One cell of the author-by-sentiment table: count of rows of that
author carrying that sentiment (groupby size, api.py line 98). -/
def countPair (rows : List Row) (a s : String) : Nat :=
  (rows.filter (fun r => r.author == some a && r.sentiment == s)).length

/-- Total column of api.py line 99: the row sum across every sentiment
column of the table, non-vocabulary columns included. -/
def rowTotal (rows : List Row) (a : String) : Nat :=
  ((matrixCols rows).map (countPair rows a)).sum

/-- Number of rows of a given author (used to relate the Total column to
the data). -/
def countAuthor (rows : List Row) (a : String) : Nat :=
  (rows.filter (fun r => r.author == some a)).length

/-- api.py lines 100 to 101: sort authors by the Total column descending,
keep the first 10.  Ties keep the sorted author order of the table index,
a concrete refinement of the unspecified tie order of the pandas sort. -/
def top_authors (rows : List Row) : List String :=
  ((matrixAuthors rows).insertionSort
      (fun a b => rowTotal rows b ≤ rowTotal rows a)).take 10

/-- api.py line 102: the columns actually rendered are the fixed
vocabulary, in vocabulary order, intersected with the columns of the
table. -/
def chartCols (rows : List Row) : List String :=
  desired_order.filter (fun s => (matrixCols rows).contains s)

/-- Data of the per-author stacked chart, api.py lines 103 to 106: the
top-10 rows in reversed display order, each restricted to the rendered
columns. -/
def author_sentiment_chart (rows : List Row) : List (String × List Nat) :=
  (top_authors rows).reverse.map
    (fun a => (a, (chartCols rows).map (countPair rows a)))

/-- Response data of the endpoint: the KPI record plus the numeric data of
the three charts and the resolved parameter values interpolated into the
HTML report (api.py lines 121 to 168). -/
structure Output where
  kpis : Kpis
  mentionsOverTime : List (Bucket × Nat)
  sentimentBars : List (String × Nat)
  authorChartCols : List String
  authorChart : List (String × List Nat)
  min_year : Int
  max_year : Int
  selected_authors : List String
  granularity : String
deriving Repr, DecidableEq

/-- Successful pipeline body once the bounds and the allow-list are
resolved: normalize, filter, aggregate the KPIs and the three chart data
sets (api.py lines 40 to 106). -/
def buildOutput (csv : Csv) (p : Params) (minY maxY : Int) : Output :=
  let authors := p.selected_authors.getD (distinctAuthors (ingestRows csv))
  let filtered := (ingestRows csv).filter (keepRow minY maxY authors)
  let g := p.granularity.getD "Par mois"
  { kpis := kpisOf filtered
  , mentionsOverTime := mentions_over_time g filtered
  , sentimentBars := sentiment_counts filtered
  , authorChartCols := chartCols filtered
  , authorChart := author_sentiment_chart filtered
  , min_year := minY
  , max_year := maxY
  , selected_authors := authors
  , granularity := g }

/-- Shallow embedding of the analyser_csv endpoint, api.py lines 30 to
168.  Failure cases in source order: a missing articleCreatedDate or
sentimentHumanReadable column raises KeyError at lines 40 to 41; int() of
a NaN default bound raises ValueError at lines 44 to 47; a missing
authorName column raises KeyError at line 49 or 54; and when the
vocabulary-intersected column selection of line 102 is empty (in
particular whenever the filtered set is empty), the DataFrame.plot call
of line 105 raises TypeError, since a frame with no numeric column cannot
be plotted. -/
def analyser_csv (csv : Csv) (p : Params) : Except String Output :=
  if "articleCreatedDate" ∉ csv.header then
    .error "KeyError: articleCreatedDate"
  else if "sentimentHumanReadable" ∉ csv.header then
    .error "KeyError: sentimentHumanReadable"
  else
    match resolveBound p.min_year (observedYears (ingestRows csv)).min? with
    | .error e => .error e
    | .ok minY =>
      match resolveBound p.max_year
          (observedYears (ingestRows csv)).max? with
      | .error e => .error e
      | .ok maxY =>
        if "authorName" ∉ csv.header then .error "KeyError: authorName"
        else if (buildOutput csv p minY maxY).authorChartCols = [] then
          .error "TypeError: no numeric data to plot"
        else .ok (buildOutput csv p minY maxY)

/-- Label test used to relate the three named KPIs to the total: does the
normalized sentiment equal one of the three named labels. -/
def inThree (r : Row) : Bool :=
  r.sentiment == "positive" || r.sentiment == "negative" ||
    r.sentiment == "neutral"

/-- Placeholder output value used only to extract the payload of a
response known to be successful. -/
def emptyOutput : Output :=
  ⟨⟨0, 0, 0, 0⟩, [], [], [], [], 0, 0, [], ""⟩

/-- Header carrying exactly the three required columns. -/
def fullHeader : List String :=
  ["articleCreatedDate", "authorName", "sentimentHumanReadable"]

/-- CSV with a complete header and zero data rows. -/
def csvHeaderOnly : Csv := ⟨fullHeader, []⟩

/-- Request with every optional form field omitted. -/
def pNone : Params := ⟨none, none, none, none⟩

/-- The worked example of the specification: two rows, January and
February 2024, labels Positive with trailing blank and negative. -/
def csvExample : Csv :=
  ⟨fullHeader,
   [⟨some ⟨2024, 1, 5⟩, some "A", some "Positive "⟩,
    ⟨some ⟨2024, 2, 10⟩, some "B", some "negative"⟩]⟩

/-- Response payload of the worked example. -/
def outExample : Output :=
  (analyser_csv csvExample pNone).toOption.getD emptyOutput

/-- A row with a parsed 2024 date, author A and sentiment positive. -/
def rowExample : Row := ⟨some ⟨2024, 1, 5⟩, some "A", "positive"⟩

/-- CSV whose single row has an unparseable date. -/
def csvBadDate : Csv := ⟨fullHeader, [⟨none, some "A", some "positive"⟩]⟩

/-- CSV mixing a parseable row, a missing author and a missing date. -/
def csvMixed : Csv :=
  ⟨fullHeader,
   [⟨some ⟨2024, 1, 5⟩, some "A", some "positive"⟩,
    ⟨some ⟨2024, 1, 6⟩, none, some "neutral"⟩,
    ⟨none, some "B", some "negative"⟩]⟩

/-- Response payload of the mixed example. -/
def outMixed : Output :=
  (analyser_csv csvMixed pNone).toOption.getD emptyOutput

/-- Rows exercising the top-10 ranking: author A has two rows, one with
the non-vocabulary label great, author B has one row. -/
def rowsC5 : List Row :=
  [⟨some ⟨2024, 1, 1⟩, some "A", "positive"⟩,
   ⟨some ⟨2024, 1, 2⟩, some "A", "great"⟩,
   ⟨some ⟨2024, 1, 3⟩, some "B", "positive"⟩]

/-- CSV missing the authorName column. -/
def csvNoAuthor : Csv :=
  ⟨["articleCreatedDate", "sentimentHumanReadable"], []⟩

/-- Unfolding of countSentiment over a cons cell. -/
theorem countSentiment_cons (r : Row) (rs : List Row) (s : String) :
    countSentiment (r :: rs) s =
      (if r.sentiment == s then 1 else 0) + countSentiment rs s := by
  simp only [countSentiment, List.filter]
  split
  · simp_all
    omega
  · simp_all

/-- countSentiment distributes over append. -/
theorem countSentiment_append (l₁ l₂ : List Row) (s : String) :
    countSentiment (l₁ ++ l₂) s = countSentiment l₁ s + countSentiment l₂ s := by
  simp [countSentiment, List.filter_append]

/-- Unfolding of countPair over a cons cell. -/
theorem countPair_cons (r : Row) (rs : List Row) (a s : String) :
    countPair (r :: rs) a s =
      (if r.author == some a && r.sentiment == s then 1 else 0)
        + countPair rs a s := by
  simp only [countPair, List.filter]
  split
  · simp_all
    omega
  · simp_all

/-- Unfolding of countAuthor over a cons cell. -/
theorem countAuthor_cons (r : Row) (rs : List Row) (a : String) :
    countAuthor (r :: rs) a =
      (if r.author == some a then 1 else 0) + countAuthor rs a := by
  simp only [countAuthor, List.filter]
  split
  · simp_all
    omega
  · simp_all

/-- Sum of a pointwise addition of two functions over a list. -/
theorem sum_map_add (l : List String) (f g : String → Nat) :
    (l.map (fun s => f s + g s)).sum = (l.map f).sum + (l.map g).sum := by
  induction l with
  | nil => simp
  | cons c cs ih => simp [ih]; omega

/-- Sum of an equality indicator over a list without the target value. -/
theorem sum_indicator_not_mem (cols : List String) (t : String)
    (h : t ∉ cols) :
    (cols.map (fun s => if t == s then (1 : Nat) else 0)).sum = 0 := by
  induction cols with
  | nil => rfl
  | cons c cs ih =>
    simp only [List.mem_cons, not_or] at h
    simp only [List.map_cons, List.sum_cons]
    rw [if_neg (by simp [h.1]), ih h.2]

/-- Sum of an equality indicator over a duplicate-free list containing the
target value. -/
theorem sum_indicator_mem (cols : List String) (t : String)
    (hnd : cols.Nodup) (hm : t ∈ cols) :
    (cols.map (fun s => if t == s then (1 : Nat) else 0)).sum = 1 := by
  induction cols with
  | nil => cases hm
  | cons c cs ih =>
    simp only [List.map_cons, List.sum_cons]
    rcases List.mem_cons.mp hm with h | h
    · subst h
      rw [if_pos (by simp),
        sum_indicator_not_mem cs t (List.nodup_cons.mp hnd).1]
    · have hne : t ≠ c := by
        rintro rfl; exact (List.nodup_cons.mp hnd).1 h
      rw [if_neg (by simp [hne]), ih (List.nodup_cons.mp hnd).2 h]

/-- Partition of the rows of one author over a complete duplicate-free
column list: the column sums of the author-by-sentiment table add up to
the author's row count. -/
theorem sum_countPair (cols : List String) (rows : List Row) (a : String)
    (hnd : cols.Nodup)
    (hcover : ∀ r ∈ rows, r.author = some a → r.sentiment ∈ cols) :
    (cols.map (fun s => countPair rows a s)).sum = countAuthor rows a := by
  induction rows with
  | nil =>
    have h0 : (cols.map (fun s => countPair ([] : List Row) a s)).sum = 0 :=
      List.sum_eq_zero (by
        intro x hx
        rcases List.mem_map.mp hx with ⟨s, _, rfl⟩
        simp [countPair])
    simp [h0, countAuthor]
  | cons r rs ih =>
    have hcover' : ∀ r' ∈ rs, r'.author = some a → r'.sentiment ∈ cols :=
      fun r' h => hcover r' (List.mem_cons_of_mem _ h)
    have step : (cols.map (fun s => countPair (r :: rs) a s)).sum =
        (cols.map (fun s =>
          if r.author == some a && r.sentiment == s then 1 else 0)).sum
          + (cols.map (fun s => countPair rs a s)).sum := by
      calc (cols.map (fun s => countPair (r :: rs) a s)).sum
          = (cols.map (fun s =>
              (if r.author == some a && r.sentiment == s then 1 else 0)
                + countPair rs a s)).sum := by
            simp only [countPair_cons]
        _ = _ := sum_map_add cols _ _
    rw [step, ih hcover', countAuthor_cons]
    by_cases ha : r.author = some a
    · have hm : r.sentiment ∈ cols := hcover r (List.mem_cons_self r rs) ha
      have heq : (fun s => if r.author == some a && r.sentiment == s
            then (1 : Nat) else 0)
          = fun s => if r.sentiment == s then (1 : Nat) else 0 := by
        funext s
        have hb : (r.author == some a) = true := by simp [ha]
        simp [hb]
      rw [heq, sum_indicator_mem cols r.sentiment hnd hm,
        if_pos (by simp [ha])]
    · have heq : (fun s => if r.author == some a && r.sentiment == s
            then (1 : Nat) else 0) = fun _ => (0 : Nat) := by
        funext s
        have hb : (r.author == some a) = false := by simp [ha]
        simp [hb]
      rw [heq, if_neg (by simp [ha])]
      simp

/-- matrixCols has no duplicate labels. -/
theorem matrixCols_nodup (rows : List Row) : (matrixCols rows).Nodup := by
  unfold matrixCols
  exact ((List.perm_insertionSort _ _).nodup_iff).mpr (List.nodup_dedup _)

/-- Membership in matrixCols: exactly the sentiments of rows with a
present author. -/
theorem mem_matrixCols (rows : List Row) (s : String) :
    s ∈ matrixCols rows ↔
      ∃ r ∈ rows, r.author.isSome ∧ r.sentiment = s := by
  unfold matrixCols
  rw [List.mem_insertionSort, List.mem_dedup]
  constructor
  · intro h
    rcases List.mem_map.mp h with ⟨r, hr, rfl⟩
    exact ⟨r, (List.mem_filter.mp hr).1, by
      simpa using (List.mem_filter.mp hr).2, rfl⟩
  · rintro ⟨r, hr, hsome, rfl⟩
    exact List.mem_map.mpr ⟨r, List.mem_filter.mpr ⟨hr, by simpa using hsome⟩, rfl⟩

/-- The Total column of the table equals the plain per-author row count:
every sentiment of a row of that author is one of the columns of the
table. -/
theorem rowTotal_eq_countAuthor (rows : List Row) (a : String) :
    rowTotal rows a = countAuthor rows a := by
  unfold rowTotal
  apply sum_countPair _ _ _ (matrixCols_nodup rows)
  intro r hr ha
  exact (mem_matrixCols rows r.sentiment).mpr ⟨r, hr, by simp [ha], rfl⟩

/-- A successful response determines the resolved bounds, the allow-list
and every output field: inversion of the control flow of analyser_csv. -/
theorem analyser_ok_inv {csv : Csv} {p : Params} {out : Output}
    (h : analyser_csv csv p = .ok out) :
    "articleCreatedDate" ∈ csv.header ∧
    "sentimentHumanReadable" ∈ csv.header ∧
    "authorName" ∈ csv.header ∧
    resolveBound p.min_year
      ((observedYears (ingestRows csv)).min?) = .ok out.min_year ∧
    resolveBound p.max_year
      ((observedYears (ingestRows csv)).max?) = .ok out.max_year ∧
    out = buildOutput csv p out.min_year out.max_year := by
  unfold analyser_csv at h
  by_cases hc1 : "articleCreatedDate" ∉ csv.header
  · rw [if_pos hc1] at h; cases h
  rw [if_neg hc1] at h
  by_cases hc2 : "sentimentHumanReadable" ∉ csv.header
  · rw [if_pos hc2] at h; cases h
  rw [if_neg hc2] at h
  rcases hmin : resolveBound p.min_year
      (observedYears (ingestRows csv)).min? with e | minY
  · rw [hmin] at h; simp at h
  rw [hmin] at h
  dsimp only [] at h
  rcases hmax : resolveBound p.max_year
      (observedYears (ingestRows csv)).max? with e | maxY
  · rw [hmax] at h; simp at h
  rw [hmax] at h
  dsimp only [] at h
  by_cases hc3 : "authorName" ∉ csv.header
  · rw [if_pos hc3] at h; simp at h
  rw [if_neg hc3] at h
  by_cases hc4 : (buildOutput csv p minY maxY).authorChartCols = []
  · rw [if_pos hc4] at h; simp at h
  rw [if_neg hc4] at h
  simp only [Except.ok.injEq] at h
  have hminf : out.min_year = minY := by rw [← h]; rfl
  have hmaxf : out.max_year = maxY := by rw [← h]; rfl
  refine ⟨not_not.mp hc1, not_not.mp hc2, not_not.mp hc3, ?_, ?_, ?_⟩
  · rw [hminf]
  · rw [hmaxf]
  · rw [hminf, hmaxf, ← h]

/-- The minimum of an integer list bounds every member from below. -/
theorem min?_le_mem {l : List Int} {a b : Int}
    (h : l.min? = some a) (hb : b ∈ l) : a ≤ b := by
  haveI : Std.Antisymm (fun (x1 x2 : Int) => x1 ≤ x2) :=
    ⟨fun h1 h2 => le_antisymm h1 h2⟩
  rw [List.min?_eq_some_iff (fun x => le_refl x) (fun x y => min_choice x y)
    (fun x y z => le_min_iff)] at h
  exact h.2 b hb

/-- The maximum of an integer list bounds every member from above. -/
theorem mem_le_max? {l : List Int} {a b : Int}
    (h : l.max? = some a) (hb : b ∈ l) : b ≤ a := by
  haveI : Std.Antisymm (fun (x1 x2 : Int) => x1 ≤ x2) :=
    ⟨fun h1 h2 => le_antisymm h1 h2⟩
  rw [List.max?_eq_some_iff (fun x => le_refl x) (fun x y => max_choice x y)
    (fun x y z => max_le_iff)] at h
  exact h.2 b hb

/-- A filter keeps the whole list exactly when every element passes. -/
theorem length_filter_eq_iff {α : Type} (p : α → Bool) (l : List α) :
    (l.filter p).length = l.length ↔ ∀ a ∈ l, p a := by
  constructor
  · intro h
    have := (List.filter_sublist (p := p) l).eq_of_length h
    exact fun a ha => List.of_mem_filter (this ▸ ha)
  · intro h
    rw [List.filter_eq_self.mpr h]

/-- Length of a filtered cons cell as an indicator sum. -/
theorem length_filter_cons {α : Type} (p : α → Bool) (r : α) (rs : List α) :
    (List.filter p (r :: rs)).length =
      (if p r then 1 else 0) + (List.filter p rs).length := by
  simp only [List.filter]
  split
  · simp_all
    omega
  · simp_all

/-- The three named KPI counts add up to the count of rows carrying one of
the three named labels. -/
theorem partition_three (rows : List Row) :
    countSentiment rows "positive" + countSentiment rows "negative"
        + countSentiment rows "neutral" = (rows.filter inThree).length := by
  induction rows with
  | nil => rfl
  | cons r rs ih =>
    rw [countSentiment_cons, countSentiment_cons, countSentiment_cons,
      length_filter_cons]
    have hInd : (if r.sentiment == "positive" then (1 : Nat) else 0)
        + (if r.sentiment == "negative" then (1 : Nat) else 0)
        + (if r.sentiment == "neutral" then (1 : Nat) else 0)
        = (if inThree r then (1 : Nat) else 0) := by
      simp only [inThree]
      by_cases h1 : r.sentiment = "positive"
      · simp only [h1]; decide
      by_cases h2 : r.sentiment = "negative"
      · simp only [h2]; decide
      by_cases h3 : r.sentiment = "neutral"
      · simp only [h3]; decide
      have b1 : (r.sentiment == "positive") = false := by simp [h1]
      have b2 : (r.sentiment == "negative") = false := by simp [h2]
      have b3 : (r.sentiment == "neutral") = false := by simp [h3]
      simp [b1, b2, b3]
    omega

/-- C1: for every CSV input and every filter selection, the KPI summary of
a successful POST /analyser response satisfies: total_mentions is the
number of rows remaining after the filter, and positive, negative, neutral
are the numbers of filtered rows whose trimmed lowercased sentiment label
is exactly positive, negative, neutral respectively (the total counts the
filtered rows of every sentiment label, not only the three named ones). -/
theorem C1_kpis_exact (csv : Csv) (p : Params) (out : Output)
    (h : analyser_csv csv p = .ok out) :
    out.kpis.total_mentions =
      ((ingestRows csv).filter
        (keepRow out.min_year out.max_year out.selected_authors)).length ∧
    out.kpis.positive =
      (((ingestRows csv).filter
        (keepRow out.min_year out.max_year out.selected_authors)).filter
          (fun r => r.sentiment == "positive")).length ∧
    out.kpis.negative =
      (((ingestRows csv).filter
        (keepRow out.min_year out.max_year out.selected_authors)).filter
          (fun r => r.sentiment == "negative")).length ∧
    out.kpis.neutral =
      (((ingestRows csv).filter
        (keepRow out.min_year out.max_year out.selected_authors)).filter
          (fun r => r.sentiment == "neutral")).length := by
  obtain ⟨-, -, -, -, -, hout⟩ := analyser_ok_inv h
  have hsel : out.selected_authors =
      p.selected_authors.getD (distinctAuthors (ingestRows csv)) := by
    conv_lhs => rw [hout]
    simp [buildOutput]
  refine ⟨?_, ?_, ?_, ?_⟩ <;>
    · conv_lhs => rw [hout]
      simp [buildOutput, kpisOf, countSentiment, hsel]

/-- C1 witness: the worked example evaluated concretely. -/
theorem C1_witness :
    outExample.kpis.total_mentions =
      ((ingestRows csvExample).filter
        (keepRow outExample.min_year outExample.max_year
          outExample.selected_authors)).length ∧
    outExample.kpis.positive =
      (((ingestRows csvExample).filter
        (keepRow outExample.min_year outExample.max_year
          outExample.selected_authors)).filter
          (fun r => r.sentiment == "positive")).length ∧
    outExample.kpis.negative =
      (((ingestRows csvExample).filter
        (keepRow outExample.min_year outExample.max_year
          outExample.selected_authors)).filter
          (fun r => r.sentiment == "negative")).length ∧
    outExample.kpis.neutral =
      (((ingestRows csvExample).filter
        (keepRow outExample.min_year outExample.max_year
          outExample.selected_authors)).filter
          (fun r => r.sentiment == "neutral")).length :=
  C1_kpis_exact csvExample pNone outExample (by rfl)

/-- C3: a record passes the filter exactly when its parsed year lies in
the inclusive range and its author is in the allow-list; a record with a
missing year never passes, and with min_year = max_year = Y only records
of parsed year Y pass. -/
theorem C3_filter_predicate (mn mx Y : Int) (authors : List String)
    (r : Row) :
    (keepRow mn mx authors r = true ↔
      (∃ y, yearOf r = some y ∧ mn ≤ y ∧ y ≤ mx) ∧
      (∃ a, r.author = some a ∧ a ∈ authors)) ∧
    (yearOf r = none → keepRow mn mx authors r = false) ∧
    (keepRow Y Y authors r = true → yearOf r = some Y) := by
  have hiff : ∀ (lo hi : Int), keepRow lo hi authors r = true ↔
      (∃ y, yearOf r = some y ∧ lo ≤ y ∧ y ≤ hi) ∧
      (∃ a, r.author = some a ∧ a ∈ authors) := by
    intro lo hi
    unfold keepRow
    rcases hy : yearOf r with _ | y <;>
      rcases ha : r.author with _ | a <;>
        simp [hy, ha, List.elem_iff]
  refine ⟨hiff mn mx, ?_, ?_⟩
  · intro hnone
    rcases hb : keepRow mn mx authors r with _ | _
    · rfl
    · obtain ⟨⟨y, hy, -⟩, -⟩ := (hiff mn mx).mp hb
      rw [hnone] at hy
      cases hy
  · intro hkeep
    obtain ⟨⟨y, hy, h1, h2⟩, -⟩ := (hiff Y Y).mp hkeep
    rw [hy, le_antisymm h2 h1]

/-- C3 witness: the predicate evaluated at a concrete record. -/
theorem C3_witness : yearOf rowExample = some 2024 :=
  (C3_filter_predicate 2024 2024 2024 ["A"] rowExample).2.2 (by decide)

/-- C4: the three named KPI counts never exceed the total, with equality
exactly when every filtered row carries one of the three named labels. -/
theorem C4_kpi_inequality (rows : List Row) :
    (kpisOf rows).positive + (kpisOf rows).negative + (kpisOf rows).neutral
        ≤ (kpisOf rows).total_mentions ∧
    ((kpisOf rows).positive + (kpisOf rows).negative
        + (kpisOf rows).neutral = (kpisOf rows).total_mentions ↔
      ∀ r ∈ rows, r.sentiment = "positive" ∨ r.sentiment = "negative" ∨
        r.sentiment = "neutral") := by
  have hpart := partition_three rows
  have hfin : ∀ r : Row, inThree r = true ↔
      r.sentiment = "positive" ∨ r.sentiment = "negative" ∨
        r.sentiment = "neutral" := by
    intro r
    simp [inThree, or_assoc]
  constructor
  · show countSentiment rows "positive" + countSentiment rows "negative"
        + countSentiment rows "neutral" ≤ rows.length
    rw [hpart]
    exact List.length_filter_le _ _
  · show countSentiment rows "positive" + countSentiment rows "negative"
        + countSentiment rows "neutral" = rows.length ↔ _
    rw [hpart, length_filter_eq_iff]
    constructor
    · intro h r hr
      exact (hfin r).mp (h r hr)
    · intro h r hr
      exact (hfin r).mpr (h r hr)

/-- C6: the sentiment-distribution chart always has exactly five bars, one
per vocabulary label in the fixed order, each bar the count of that label
among the filtered rows, and a zero bar for every absent label. -/
theorem C6_five_bars (rows : List Row) :
    (sentiment_counts rows).length = 5 ∧
    (sentiment_counts rows).map Prod.fst = desired_order ∧
    (∀ pr ∈ sentiment_counts rows,
      pr.2 = (rows.filter (fun r => r.sentiment == pr.1)).length) ∧
    (∀ pr ∈ sentiment_counts rows,
      (∀ r ∈ rows, r.sentiment ≠ pr.1) → pr.2 = 0) := by
  refine ⟨rfl, rfl, ?_, ?_⟩
  · intro pr hpr
    rcases List.mem_map.mp hpr with ⟨s, hs, rfl⟩
    rfl
  · intro pr hpr habs
    rcases List.mem_map.mp hpr with ⟨s, hs, rfl⟩
    have hnil : rows.filter (fun r => r.sentiment == s) = [] :=
      List.filter_eq_nil_iff.mpr (fun r hr => by simp [habs r hr])
    show countSentiment rows s = 0
    simp [countSentiment, hnil]

/-- C6 witness: the five bars of the worked example. -/
theorem C6_witness :
    (sentiment_counts (ingestRows csvExample)).length = 5 ∧
    ("neutral", 0) ∈ sentiment_counts (ingestRows csvExample) ∧
    (0 : Nat) =
      ((ingestRows csvExample).filter
        (fun r => r.sentiment == "neutral")).length :=
  ⟨(C6_five_bars (ingestRows csvExample)).1, by decide,
    (C6_five_bars (ingestRows csvExample)).2.2.1 ("neutral", 0) (by decide)⟩

/-- C4 witness: the inequality evaluated on the worked example. -/
theorem C4_witness :
    (kpisOf (ingestRows csvExample)).positive
        + (kpisOf (ingestRows csvExample)).negative
        + (kpisOf (ingestRows csvExample)).neutral
      ≤ (kpisOf (ingestRows csvExample)).total_mentions :=
  (C4_kpi_inequality (ingestRows csvExample)).1

/-- C2 counterexample: with every optional parameter omitted, a CSV with
zero data rows makes the default year-bound computation raise ValueError,
so the request fails instead of returning all-zero KPIs. -/
theorem C2_counterexample :
    analyser_csv csvHeaderOnly pNone =
      .error "ValueError: cannot convert float NaN to integer" := by rfl

/-- C2 amended: a CSV with zero data rows never completes.  With a year
bound omitted the default bound computation raises ValueError; with both
bounds provided explicitly the filtered set is empty, so the per-author
chart frame has no numeric column and plotting it raises TypeError.  The
KPI aggregation itself is all zero on the empty set, but no response
carrying it is returned. -/
theorem C2_empty_csv (header : List String) (sa : Option (List String))
    (g : Option String) (mn mx : Int)
    (h1 : "articleCreatedDate" ∈ header)
    (h2 : "sentimentHumanReadable" ∈ header) :
    analyser_csv ⟨header, []⟩ ⟨sa, none, none, g⟩ =
      .error "ValueError: cannot convert float NaN to integer" ∧
    ("authorName" ∈ header →
      analyser_csv ⟨header, []⟩ ⟨sa, some mn, some mx, g⟩ =
        .error "TypeError: no numeric data to plot") ∧
    (buildOutput ⟨header, []⟩ ⟨sa, some mn, some mx, g⟩ mn mx).kpis =
      ⟨0, 0, 0, 0⟩ := by
  refine ⟨?_, ?_, rfl⟩
  · unfold analyser_csv
    rw [if_neg (not_not.mpr h1), if_neg (not_not.mpr h2)]
    rfl
  · intro h3
    unfold analyser_csv
    rw [if_neg (not_not.mpr h1), if_neg (not_not.mpr h2)]
    show (if "authorName" ∉ header then
        Except.error "KeyError: authorName"
      else if (buildOutput ⟨header, []⟩ ⟨sa, some mn, some mx, g⟩ mn
          mx).authorChartCols = [] then
        Except.error "TypeError: no numeric data to plot"
      else Except.ok
        (buildOutput ⟨header, []⟩ ⟨sa, some mn, some mx, g⟩ mn mx)) = _
    rw [if_neg (not_not.mpr h3), if_pos (by rfl)]

/-- C2 witness: the amended statement evaluated at the three-column
header. -/
theorem C2_witness :
    analyser_csv csvHeaderOnly pNone =
      .error "ValueError: cannot convert float NaN to integer" ∧
    analyser_csv csvHeaderOnly ⟨none, some 2020, some 2021, none⟩ =
      .error "TypeError: no numeric data to plot" ∧
    (buildOutput csvHeaderOnly
        ⟨none, some 2020, some 2021, none⟩ 2020 2021).kpis = ⟨0, 0, 0, 0⟩ := by
  have h := C2_empty_csv fullHeader none none 2020 2021
    (by decide) (by decide)
  exact ⟨h.1, h.2.1 (by decide), h.2.2⟩

/-- C7: the granularity dispatch sends Par jour to the calendar date,
Par semaine to the enclosing Monday-to-Sunday (ISO) week, Par mois to the
calendar month, Par année to the calendar year; an omitted granularity
field defaults to month, and any unrecognized value also falls back to
month bucketing. -/
theorem C7_granularity (dt : Date) (g : String) (csv : Csv) (p : Params)
    (out : Output) :
    bucketOf "Par jour" dt = .day dt.year dt.month dt.day ∧
    (bucketOf "Par semaine" dt = .week (weekStart dt) ∧
      (weekStart dt + 3) % 7 = 0 ∧
      weekStart dt ≤ daysFromCivil dt ∧
      daysFromCivil dt ≤ weekStart dt + 6) ∧
    bucketOf "Par mois" dt = .month dt.year dt.month ∧
    bucketOf "Par année" dt = .year dt.year ∧
    (g ≠ "Par jour" → g ≠ "Par semaine" → g ≠ "Par mois" →
      g ≠ "Par année" → bucketOf g dt = .month dt.year dt.month) ∧
    (p.granularity = none → analyser_csv csv p = .ok out →
      out.granularity = "Par mois") := by
  refine ⟨rfl, ⟨rfl, ?_, ?_, ?_⟩, rfl, rfl, ?_, ?_⟩
  · unfold weekStart; omega
  · unfold weekStart; omega
  · unfold weekStart; omega
  · intro h1 h2 h3 h4
    unfold bucketOf
    rw [if_neg h1, if_neg h2, if_neg h3, if_neg h4]
  · intro hg h
    obtain ⟨-, -, -, -, -, hout⟩ := analyser_ok_inv h
    conv_lhs => rw [hout]
    simp [buildOutput, hg]

/-- C7 witness: an unrecognized granularity string falls back to month,
and the omitted field of the worked example resolves to Par mois. -/
theorem C7_witness :
    bucketOf "Weekly" ⟨2024, 1, 5⟩ = .month 2024 1 ∧
    outExample.granularity = "Par mois" :=
  ⟨(C7_granularity ⟨2024, 1, 5⟩ "Weekly" csvExample pNone
      outExample).2.2.2.2.1 (by decide) (by decide) (by decide) (by decide),
   (C7_granularity ⟨2024, 1, 5⟩ "Weekly" csvExample pNone
      outExample).2.2.2.2.2 rfl (by rfl)⟩

/-- C9: a row with a missing sentiment cell is normalized to the literal
string nan; appending such a row raises total_mentions and the author
row-total feeding the top-10 ranking by one, leaves the three named KPIs
unchanged, and nan is never a rendered column of the per-author chart. -/
theorem C9_nan_sentiment (rows : List Row) (a : String) (dc : Option Date)
    (l : List Row) :
    (normalizeRow ⟨dc, some a, none⟩).sentiment = "nan" ∧
    (kpisOf (rows ++ [normalizeRow ⟨dc, some a, none⟩])).total_mentions
      = (kpisOf rows).total_mentions + 1 ∧
    (kpisOf (rows ++ [normalizeRow ⟨dc, some a, none⟩])).positive
      = (kpisOf rows).positive ∧
    (kpisOf (rows ++ [normalizeRow ⟨dc, some a, none⟩])).negative
      = (kpisOf rows).negative ∧
    (kpisOf (rows ++ [normalizeRow ⟨dc, some a, none⟩])).neutral
      = (kpisOf rows).neutral ∧
    rowTotal (rows ++ [normalizeRow ⟨dc, some a, none⟩]) a
      = rowTotal rows a + 1 ∧
    "nan" ∉ chartCols l := by
  have hs : (normalizeRow ⟨dc, some a, none⟩).sentiment = "nan" := rfl
  have hp : countSentiment [normalizeRow ⟨dc, some a, none⟩] "positive" = 0 :=
    rfl
  have hn : countSentiment [normalizeRow ⟨dc, some a, none⟩] "negative" = 0 :=
    rfl
  have hu : countSentiment [normalizeRow ⟨dc, some a, none⟩] "neutral" = 0 :=
    rfl
  refine ⟨hs, ?_, ?_, ?_, ?_, ?_, ?_⟩
  · simp [kpisOf]
  · show countSentiment _ "positive" = countSentiment rows "positive"
    rw [countSentiment_append, hp]
    omega
  · show countSentiment _ "negative" = countSentiment rows "negative"
    rw [countSentiment_append, hn]
    omega
  · show countSentiment _ "neutral" = countSentiment rows "neutral"
    rw [countSentiment_append, hu]
    omega
  · rw [rowTotal_eq_countAuthor, rowTotal_eq_countAuthor]
    have h1 : countAuthor [normalizeRow ⟨dc, some a, none⟩] a = 1 := by
      simp [countAuthor, List.filter, normalizeRow]
    simp [countAuthor, List.filter_append] at h1 ⊢
    omega
  · intro hmem
    have hd : "nan" ∈ desired_order :=
      List.mem_of_mem_filter hmem
    exact absurd hd (by decide)

/-- C10: with every optional parameter omitted the filter is still not a
no-op: every row with a missing author or an unparseable date is excluded
from the filtered set, and total_mentions equals the count of rows having
both a parsed date and an author, which can be strictly below the CSV row
count. -/
theorem C10_default_filter (csv : Csv) (out : Output)
    (h : analyser_csv csv pNone = .ok out) :
    (∀ raw ∈ csv.rows, (raw.dateCell = none ∨ raw.authorCell = none) →
      keepRow out.min_year out.max_year out.selected_authors
        (normalizeRow raw) = false) ∧
    out.kpis.total_mentions =
      ((ingestRows csv).filter
        (fun r => r.date.isSome && r.author.isSome)).length := by
  obtain ⟨-, -, -, hmin, hmax, hout⟩ := analyser_ok_inv h
  have hmin2 : (observedYears (ingestRows csv)).min? = some out.min_year := by
    rcases ho : (observedYears (ingestRows csv)).min? with _ | v
    · rw [ho] at hmin
      simp [resolveBound, pNone] at hmin
    · rw [ho] at hmin
      simp [resolveBound, pNone] at hmin
      rw [hmin]
  have hmax2 : (observedYears (ingestRows csv)).max? = some out.max_year := by
    rcases ho : (observedYears (ingestRows csv)).max? with _ | v
    · rw [ho] at hmax
      simp [resolveBound, pNone] at hmax
    · rw [ho] at hmax
      simp [resolveBound, pNone] at hmax
      rw [hmax]
  have hsel : out.selected_authors = distinctAuthors (ingestRows csv) := by
    conv_lhs => rw [hout]
    simp [buildOutput, pNone]
  have hA : ∀ r ∈ ingestRows csv,
      keepRow out.min_year out.max_year out.selected_authors r
        = (r.date.isSome && r.author.isSome) := by
    intro r hr
    rcases hd : r.date with _ | d
    · simp [keepRow, yearOf, hd]
    · rcases ha : r.author with _ | a
      · simp [keepRow, yearOf, hd, ha]
      · have hy : d.year ∈ observedYears (ingestRows csv) :=
          List.mem_filterMap.mpr ⟨r, hr, by simp [yearOf, hd]⟩
        have h1 : out.min_year ≤ d.year := min?_le_mem hmin2 hy
        have h2 : d.year ≤ out.max_year := mem_le_max? hmax2 hy
        have hmem : a ∈ out.selected_authors := by
          rw [hsel]
          exact List.mem_dedup.mpr (List.mem_filterMap.mpr ⟨r, hr, ha⟩)
        simp [keepRow, yearOf, hd, ha, h1, h2, List.elem_iff, hmem]
  constructor
  · intro raw hraw hone
    have hr : normalizeRow raw ∈ ingestRows csv :=
      List.mem_map_of_mem _ hraw
    rw [hA (normalizeRow raw) hr]
    rcases hone with h0 | h0 <;> simp [normalizeRow, h0]
  · have hk : out.kpis.total_mentions =
        ((ingestRows csv).filter
          (keepRow out.min_year out.max_year out.selected_authors)).length := by
      conv_lhs => rw [hout]
      simp [buildOutput, kpisOf, hsel, pNone]
    rw [hk, List.filter_congr hA]

/-- C10 witness: on the mixed example only one of three rows survives the
default filter. -/
theorem C10_witness :
    outMixed.kpis.total_mentions =
      ((ingestRows csvMixed).filter
        (fun r => r.date.isSome && r.author.isSome)).length ∧
    outMixed.kpis.total_mentions < csvMixed.rows.length :=
  ⟨(C10_default_filter csvMixed outMixed (by rfl)).2, by decide⟩

/-- C5: the per-author chart shows at most 10 authors; the display order
is the reverse of a ranking that is descending in the row total, where the
row total counts every row of the author whatever its sentiment label,
non-vocabulary labels included; the rendered columns are the vocabulary
labels, in vocabulary order, intersected with the sentiment columns of the
author-by-sentiment table, so non-vocabulary columns feed the ranking but
are never rendered; each rendered row holds the per-column counts of its
author. -/
theorem C5_author_chart (rows : List Row) :
    (author_sentiment_chart rows).length ≤ 10 ∧
    List.Pairwise
      (fun pq1 pq2 => countAuthor rows pq1.1 ≤ countAuthor rows pq2.1)
      (author_sentiment_chart rows) ∧
    (chartCols rows).Sublist desired_order ∧
    (∀ s, s ∈ chartCols rows ↔ s ∈ desired_order ∧
      ∃ r ∈ rows, r.author.isSome ∧ r.sentiment = s) ∧
    (∀ a cs, (a, cs) ∈ author_sentiment_chart rows →
      cs = (chartCols rows).map (countPair rows a)) := by
  refine ⟨?_, ?_, List.filter_sublist desired_order, ?_, ?_⟩
  · have h1 : (author_sentiment_chart rows).length
        = (top_authors rows).length := by
      simp [author_sentiment_chart]
    rw [h1]
    exact List.length_take_le 10 _
  · have hsorted : List.Pairwise
        (fun a b => rowTotal rows b ≤ rowTotal rows a)
        ((matrixAuthors rows).insertionSort
          (fun a b => rowTotal rows b ≤ rowTotal rows a)) := by
      haveI : IsTotal String (fun a b => rowTotal rows b ≤ rowTotal rows a) :=
        ⟨fun a b => le_total _ _⟩
      haveI : IsTrans String (fun a b => rowTotal rows b ≤ rowTotal rows a) :=
        ⟨fun a b c h1 h2 => le_trans h2 h1⟩
      exact List.sorted_insertionSort _ (matrixAuthors rows)
    have htake : List.Pairwise
        (fun a b => rowTotal rows b ≤ rowTotal rows a)
        (top_authors rows) :=
      List.Pairwise.sublist (List.take_sublist 10 _) hsorted
    have hrev : List.Pairwise
        (fun a b => rowTotal rows a ≤ rowTotal rows b)
        (top_authors rows).reverse :=
      List.pairwise_reverse.mpr htake
    have hmap : List.Pairwise
        (fun pq1 pq2 => rowTotal rows pq1.1 ≤ rowTotal rows pq2.1)
        (author_sentiment_chart rows) := by
      unfold author_sentiment_chart
      exact List.pairwise_map.mpr hrev
    exact hmap.imp (by
      intro pq1 pq2 hle
      rw [← rowTotal_eq_countAuthor, ← rowTotal_eq_countAuthor]
      exact hle)
  · intro s
    rw [chartCols, List.mem_filter]
    constructor
    · rintro ⟨hd, hc⟩
      refine ⟨hd, ?_⟩
      have : s ∈ matrixCols rows := List.elem_iff.mp hc
      exact (mem_matrixCols rows s).mp this
    · rintro ⟨hd, hex⟩
      refine ⟨hd, ?_⟩
      exact List.elem_iff.mpr ((mem_matrixCols rows s).mpr hex)
  · intro a cs hmem
    unfold author_sentiment_chart at hmem
    rcases List.mem_map.mp hmem with ⟨a2, _, heq⟩
    obtain ⟨rfl, rfl⟩ := Prod.mk.injEq .. ▸ And.intro
      (congrArg Prod.fst heq).symm (congrArg Prod.snd heq).symm
    rfl

/-- C5 witness: on rowsC5 the non-vocabulary label great keeps author A
ranked first while the chart renders the single vocabulary column. -/
theorem C5_witness :
    (author_sentiment_chart rowsC5).length ≤ 10 ∧
    [1] = (chartCols rowsC5).map (countPair rowsC5 "B") :=
  ⟨(C5_author_chart rowsC5).1,
   (C5_author_chart rowsC5).2.2.2.2 "B" [1] (by decide)⟩

/-- C8 counterexample: an unparseable date value can cause a request
failure after all: when every date of the CSV is unparseable and a year
bound is omitted, the default bound computation fails, so the claimed
unconditional tolerance does not hold. -/
theorem C8_counterexample :
    analyser_csv csvBadDate pNone =
      .error "ValueError: cannot convert float NaN to integer" := by rfl

/-- C8 amended: a missing required column always fails the request.
Parsing never fails on an unparseable date: its row is kept with a missing
year marker.  But the failure can surface downstream: with every date
unparseable, the request fails with ValueError when a year bound is
omitted and with TypeError at the per-author chart when both bounds are
given (the filtered set is then empty); with both bounds given the
request succeeds exactly when the filtered data still carries a
vocabulary sentiment column. -/
theorem C8_error_taxonomy (csv : Csv) (p : Params) (mn mx : Int)
    (sa : Option (List String)) (g : Option String) :
    (("articleCreatedDate" ∉ csv.header ∨
      "sentimentHumanReadable" ∉ csv.header ∨
      "authorName" ∉ csv.header) →
      ∃ e, analyser_csv csv p = .error e) ∧
    (∀ raw ∈ csv.rows, raw.dateCell = none →
      yearOf (normalizeRow raw) = none ∧
      normalizeRow raw ∈ ingestRows csv) ∧
    ("articleCreatedDate" ∈ csv.header →
      "sentimentHumanReadable" ∈ csv.header → "authorName" ∈ csv.header →
      ((buildOutput csv ⟨sa, some mn, some mx, g⟩ mn mx).authorChartCols
          ≠ [] →
        analyser_csv csv ⟨sa, some mn, some mx, g⟩ =
          .ok (buildOutput csv ⟨sa, some mn, some mx, g⟩ mn mx)) ∧
      ((buildOutput csv ⟨sa, some mn, some mx, g⟩ mn mx).authorChartCols
          = [] →
        analyser_csv csv ⟨sa, some mn, some mx, g⟩ =
          .error "TypeError: no numeric data to plot")) ∧
    ("articleCreatedDate" ∈ csv.header →
      "sentimentHumanReadable" ∈ csv.header →
      (∀ raw ∈ csv.rows, raw.dateCell = none) →
      analyser_csv csv ⟨sa, none, none, g⟩ =
        .error "ValueError: cannot convert float NaN to integer") ∧
    ("articleCreatedDate" ∈ csv.header →
      "sentimentHumanReadable" ∈ csv.header → "authorName" ∈ csv.header →
      (∀ raw ∈ csv.rows, raw.dateCell = none) →
      analyser_csv csv ⟨sa, some mn, some mx, g⟩ =
        .error "TypeError: no numeric data to plot") := by
  have hmain : "articleCreatedDate" ∈ csv.header →
      "sentimentHumanReadable" ∈ csv.header → "authorName" ∈ csv.header →
      ((buildOutput csv ⟨sa, some mn, some mx, g⟩ mn mx).authorChartCols
          ≠ [] →
        analyser_csv csv ⟨sa, some mn, some mx, g⟩ =
          .ok (buildOutput csv ⟨sa, some mn, some mx, g⟩ mn mx)) ∧
      ((buildOutput csv ⟨sa, some mn, some mx, g⟩ mn mx).authorChartCols
          = [] →
        analyser_csv csv ⟨sa, some mn, some mx, g⟩ =
          .error "TypeError: no numeric data to plot") := by
    intro h1 h2 h3
    constructor
    · intro hne
      unfold analyser_csv
      rw [if_neg (not_not.mpr h1), if_neg (not_not.mpr h2)]
      show (if "authorName" ∉ csv.header then
          Except.error "KeyError: authorName"
        else if (buildOutput csv ⟨sa, some mn, some mx, g⟩ mn
            mx).authorChartCols = [] then
          Except.error "TypeError: no numeric data to plot"
        else Except.ok
          (buildOutput csv ⟨sa, some mn, some mx, g⟩ mn mx)) = _
      rw [if_neg (not_not.mpr h3), if_neg hne]
    · intro he
      unfold analyser_csv
      rw [if_neg (not_not.mpr h1), if_neg (not_not.mpr h2)]
      show (if "authorName" ∉ csv.header then
          Except.error "KeyError: authorName"
        else if (buildOutput csv ⟨sa, some mn, some mx, g⟩ mn
            mx).authorChartCols = [] then
          Except.error "TypeError: no numeric data to plot"
        else Except.ok
          (buildOutput csv ⟨sa, some mn, some mx, g⟩ mn mx)) = _
      rw [if_neg (not_not.mpr h3), if_pos he]
  refine ⟨?_, ?_, hmain, ?_, ?_⟩
  · intro hmiss
    unfold analyser_csv
    by_cases h1 : "articleCreatedDate" ∉ csv.header
    · rw [if_pos h1]; exact ⟨_, rfl⟩
    rw [if_neg h1]
    by_cases h2 : "sentimentHumanReadable" ∉ csv.header
    · rw [if_pos h2]; exact ⟨_, rfl⟩
    rw [if_neg h2]
    have h3 : "authorName" ∉ csv.header := by
      rcases hmiss with h | h | h
      · exact absurd h h1
      · exact absurd h h2
      · exact h
    rcases hro : resolveBound p.min_year
        (observedYears (ingestRows csv)).min? with e | minY
    · exact ⟨e, rfl⟩
    rcases hro2 : resolveBound p.max_year
        (observedYears (ingestRows csv)).max? with e | maxY
    · exact ⟨e, rfl⟩
    refine ⟨"KeyError: authorName", ?_⟩
    show (if "authorName" ∉ csv.header then
        Except.error "KeyError: authorName"
      else if (buildOutput csv p minY maxY).authorChartCols = [] then
        Except.error "TypeError: no numeric data to plot"
      else Except.ok (buildOutput csv p minY maxY)) = _
    rw [if_pos h3]
  · intro raw hraw hnone
    exact ⟨by simp [normalizeRow, yearOf, hnone],
      List.mem_map_of_mem _ hraw⟩
  · intro h1 h2 hall
    unfold analyser_csv
    rw [if_neg (not_not.mpr h1), if_neg (not_not.mpr h2)]
    have hobs : observedYears (ingestRows csv) = [] := by
      rw [observedYears, List.filterMap_eq_nil_iff]
      intro r hr
      rcases List.mem_map.mp hr with ⟨raw, hraw, rfl⟩
      simp [normalizeRow, yearOf, hall raw hraw]
    rw [hobs]
    rfl
  · intro h1 h2 h3 hall
    have hempty : ∀ (authors : List String),
        (ingestRows csv).filter (keepRow mn mx authors) = [] := by
      intro authors
      rw [List.filter_eq_nil_iff]
      intro r hr
      rcases List.mem_map.mp hr with ⟨raw, hraw, rfl⟩
      have hy : yearOf (normalizeRow raw) = none := by
        simp [normalizeRow, yearOf, hall raw hraw]
      simp [keepRow, hy]
    have hcols : (buildOutput csv ⟨sa, some mn, some mx, g⟩ mn
        mx).authorChartCols = [] := by
      simp only [buildOutput]
      rw [hempty]
      rfl
    exact (hmain h1 h2 h3).2 hcols

/-- C8 witness: a CSV lacking the author column fails; a CSV whose only
date cell is unparseable fails with TypeError even with both year bounds
given; and a request with bounds succeeds on data carrying a vocabulary
sentiment. -/
theorem C8_witness :
    (analyser_csv csvNoAuthor pNone).isOk = false ∧
    analyser_csv csvBadDate ⟨none, some 2020, some 2021, none⟩ =
      .error "TypeError: no numeric data to plot" ∧
    (analyser_csv csvExample ⟨none, some 2024, some 2024, none⟩).isOk
      = true := by
  refine ⟨?_, ?_, ?_⟩
  · obtain ⟨e, he⟩ :=
      (C8_error_taxonomy csvNoAuthor pNone 2020 2021 none none).1
        (Or.inr (Or.inr (by decide)))
    rw [he]; rfl
  · exact (C8_error_taxonomy csvBadDate pNone 2020 2021 none none).2.2.2.2
      (by decide) (by decide) (by decide) (by decide)
  · rw [((C8_error_taxonomy csvExample pNone 2024 2024 none
        none).2.2.1 (by decide) (by decide) (by decide)).1 (by decide)]
    rfl

end Api
